import Mathlib

noncomputable section

/-!
Shallow embedding of the WiiMote virtual-controller server core
(`WiiMote-exe/exe.wiimote.py`): session registry, pairing, telemetry
ingestion, liveness eviction, and the motion-fusion / driver-emission
pipeline.  Python floats are modelled as real numbers; wall-clock
timestamps are explicit parameters wherever the source calls
`time.time()`; the nondeterministic `secrets.token_hex(16)` is an
explicit `fresh` token parameter.
-/

namespace WiiMote

/-! ### Constants (from the module header of `exe.wiimote.py`) -/

abbrev MAX_CONTROLLERS : ℕ := 4

def TIMEOUT_SEC : ℝ := 2.0

def DT_MIN : ℝ := 1 / 500
def DT_MAX : ℝ := 1 / 40

def CF_ALPHA : ℝ := 0.985
def ACC_G_TOL : ℝ := 1.2
def DRIFT_ERR_THRESH : ℝ := 0.03
def DRIFT_STEP : ℝ := 1 - CF_ALPHA

def INVERT_RX : Bool := true
def INVERT_RY : Bool := true

def RECENTER_HOLD_SEC : ℝ := 0.60

def SWING_THRESHOLD : ℝ := 2.3
def SWING_COOLDOWN : ℝ := 0.25

def DEFAULT_DATA_PORT : ℕ := 5005

/-- `WII_TO_BRIDGE`: the fixed physical-button → driver-button table,
in the source's insertion order. -/
def WII_TO_BRIDGE : List (String × String) :=
  [("A", "A"), ("B", "B"), ("1", "X"), ("2", "Y"), ("+", "START"),
   ("-", "BACK"), ("HOME", "GUIDE"), ("UP", "UP"), ("DOWN", "DOWN"),
   ("LEFT", "LEFT"), ("RIGHT", "RIGHT")]

/-! ### Data model -/

/-- A 3-axis sensor sample (`{"x":f,"y":f,"z":f}` dictionaries). -/
structure Vec3 where
  x : ℝ
  y : ℝ
  z : ℝ

def Vec3.zero : Vec3 := ⟨0, 0, 0⟩

/-- `MotionState` dataclass. -/
structure MotionState where
  last_ts : ℝ
  pitch : ℝ
  yaw : ℝ
  pitch0 : ℝ
  yaw0 : ℝ
  home_hold : Option ℝ
  last_swing : ℝ

def MotionState.init : MotionState :=
  { last_ts := 0, pitch := 0, yaw := 0, pitch0 := 0, yaw0 := 0,
    home_hold := none, last_swing := 0 }

/-- A network address (`Tuple[str, int]`). -/
abbrev Addr := String × ℕ

/-- `ControllerState` dataclass.  Button maps are modelled as total
functions defaulting to `0` (`dict.get(k, 0)` semantics). -/
structure ControllerState where
  device_id : String
  username : String
  addr : Addr
  token : String
  buttons : String → ℤ
  gyro : Vec3
  accel : Vec3
  motion : MotionState

/-- The module-level registry: `controllers`, `last_seen`, `pkt_count`,
`hz_est`, indexed by slot. -/
structure ServerState where
  controllers : Fin MAX_CONTROLLERS → Option ControllerState
  last_seen : Fin MAX_CONTROLLERS → ℝ
  pkt_count : Fin MAX_CONTROLLERS → ℕ
  hz_est : Fin MAX_CONTROLLERS → ℝ

/-- Python's `str.strip()`: drop leading and trailing whitespace.
(Defined by structural recursion on the character list so that concrete
instances reduce definitionally.) -/
def pyStrip (s : String) : String :=
  ⟨((s.data.dropWhile Char.isWhitespace).reverse.dropWhile Char.isWhitespace).reverse⟩

/-- Slot indices in the iteration order of the `controllers` dict
(keys `0..3`, insertion order). -/
def slotIndices : List (Fin MAX_CONTROLLERS) := [0, 1, 2, 3]

/-- The linear scan `for s, c in controllers.items(): if c and
c.device_id == device_id: ...` returning the first occupied slot bound
to `device_id`, together with its session. -/
def findSession (st : ServerState) (device_id : String) :
    Option (Fin MAX_CONTROLLERS × ControllerState) :=
  slotIndices.findSome? fun s =>
    match st.controllers s with
    | some c => if c.device_id = device_id then some (s, c) else none
    | none => none

/-- `next((i for i in range(MAX_CONTROLLERS) if controllers[i] is None), None)`. -/
def firstFree (st : ServerState) : Option (Fin MAX_CONTROLLERS) :=
  slotIndices.find? fun s => (st.controllers s).isNone

/-! ### Pairing service (`pair_server`, lines 284–323) -/

/-- Server replies to a `PAIR_REQUEST` (or silent drop). -/
inductive PairReply where
  | accept (slot : Fin MAX_CONTROLLERS) (token : String) (data_port : ℕ)
  | deny (reason : String)
  | ignored
deriving DecidableEq

/-- One `PAIR_REQUEST` datagram handled by `pair_server`.  `now` is
`time.time()`, `fresh` the value `secrets.token_hex(16)` would produce. -/
def pairRequest (now : ℝ) (st : ServerState) (raw_device_id raw_username : String)
    (addr : Addr) (fresh : String) : ServerState × PairReply :=
  let device_id := pyStrip raw_device_id
  let username := (pyStrip raw_username).take 64
  if device_id = "" then (st, .ignored)
  else
    match findSession st device_id with
    | some (slot, c) =>
        -- refresh existing: name/address updated, token kept (`c.token or ...`)
        let token' := if c.token = "" then fresh else c.token
        ({ st with
            controllers := fun s =>
              if s = slot then
                some { c with username := username, addr := addr, token := token' }
              else st.controllers s,
            last_seen := fun s => if s = slot then now else st.last_seen s },
         .accept slot token' DEFAULT_DATA_PORT)
    | none =>
        match firstFree st with
        | none => (st, .deny "NO_FREE_SLOTS")
        | some free =>
            ({ st with
                controllers := fun s =>
                  if s = free then
                    some { device_id := device_id, username := username,
                           addr := addr, token := fresh,
                           buttons := fun _ => 0, gyro := Vec3.zero,
                           accel := Vec3.zero, motion := MotionState.init }
                  else st.controllers s,
                last_seen := fun s => if s = free then now else st.last_seen s },
             .accept free fresh DEFAULT_DATA_PORT)

/-! ### Telemetry ingestion (`phone_listener`, lines 348–371) -/

/-- A decoded telemetry datagram (client timestamp unused server-side). -/
structure TelemetryPacket where
  device_id : String
  token : String
  buttons : String → ℤ
  gyro : Vec3
  accel : Vec3
  addr : Addr

/-- The packet is authorized: non-empty stripped `device_id` and
`token`, some occupied slot is bound to the `device_id`, and that
slot's session token equals the packet token. -/
def telemetryAuthorized (st : ServerState) (p : TelemetryPacket) : Prop :=
  pyStrip p.device_id ≠ "" ∧ pyStrip p.token ≠ "" ∧
    ∃ slot c, findSession st (pyStrip p.device_id) = some (slot, c) ∧
      c.token = pyStrip p.token

/-- One telemetry datagram handled by `phone_listener`.  The second
component is the reply datagram: the listener never sends one. -/
def processTelemetry (now : ℝ) (st : ServerState) (p : TelemetryPacket) :
    ServerState × Option Unit :=
  let device_id := pyStrip p.device_id
  let token := pyStrip p.token
  if device_id = "" ∨ token = "" then (st, none)
  else
    match findSession st device_id with
    | none => (st, none)
    | some (slot, c) =>
        if c.token ≠ token then (st, none)
        else
          ({ st with
              controllers := fun s =>
                if s = slot then
                  some { c with addr := p.addr, buttons := p.buttons, gyro := p.gyro, accel := p.accel }
                else st.controllers s,
              last_seen := fun s => if s = slot then now else st.last_seen s,
              pkt_count := fun s =>
                if s = slot then st.pkt_count s + 1 else st.pkt_count s },
           none)

/-! ### Liveness monitor (`cleanup_loop`, lines 373–383) and UI
disconnect (`ModernUI.disconnect_slot`, lines 692–696) -/

/-- One eviction pass: every occupied slot with `now - last_seen > TIMEOUT_SEC`
is cleared together with its statistics.  The Python loop body touches only
slot `s`, so the pass is pointwise. -/
def evictPass (now : ℝ) (st : ServerState) : ServerState :=
  { controllers := fun s =>
      if (st.controllers s).isSome ∧ TIMEOUT_SEC < now - st.last_seen s then none
      else st.controllers s,
    last_seen := fun s =>
      if (st.controllers s).isSome ∧ TIMEOUT_SEC < now - st.last_seen s then 0
      else st.last_seen s,
    pkt_count := fun s =>
      if (st.controllers s).isSome ∧ TIMEOUT_SEC < now - st.last_seen s then 0
      else st.pkt_count s,
    hz_est := fun s =>
      if (st.controllers s).isSome ∧ TIMEOUT_SEC < now - st.last_seen s then 0
      else st.hz_est s }

/-- `ModernUI.disconnect_slot`: clears the slot, `last_seen` and `hz_est`
(and nothing else). -/
def disconnect_slot (st : ServerState) (slot : Fin MAX_CONTROLLERS) : ServerState :=
  { st with
    controllers := fun s => if s = slot then none else st.controllers s,
    last_seen := fun s => if s = slot then 0 else st.last_seen s,
    hz_est := fun s => if s = slot then 0 else st.hz_est s }

/-! ### Motion fusion engine (`update_motion` lines 398–425,
`compute_axes` lines 427–467) -/

/-- `clamp(v, lo, hi) = max(lo, min(hi, v))`. -/
def clamp (v lo hi : ℝ) : ℝ := max lo (min hi v)

/-- `maybe_deg_to_rad`: convert degrees/s to radians/s when the
magnitude exceeds the 20-unit heuristic threshold. -/
def maybe_deg_to_rad (v : ℝ) : ℝ :=
  if 20 < |v| then v * Real.pi / 180 else v

/-- `accel_to_pitch(ax, ay, az) = atan2(-ax, max(sqrt(ay²+az²), 1e-6))`.
Since the second argument is always `≥ 1e-6 > 0`, `atan2(y, x)` equals
`arctan (y / x)` on this code path. -/
def accel_to_pitch (ax ay az : ℝ) : ℝ :=
  let denom0 := Real.sqrt (ay * ay + az * az)
  let denom := if denom0 < 1e-6 then 1e-6 else denom0
  Real.arctan (-ax / denom)

/-- `apply_deadzone(x, dz)`. -/
def apply_deadzone (x dz : ℝ) : ℝ := if |x| < dz then 0 else x

/-- `update_motion(c)` at wall-clock time `now`: drift-corrected
absolute-orientation integration (gyro x → pitch, gyro z → yaw) plus the
complementary-filter correction toward the accelerometer-derived pitch. -/
def update_motion (now : ℝ) (c : ControllerState) : ControllerState :=
  let m := c.motion
  if m.last_ts = 0 then { c with motion := { m with last_ts := now } }
  else
    let dt := clamp (now - m.last_ts) DT_MIN DT_MAX
    let gx := maybe_deg_to_rad c.gyro.x
    let gz := maybe_deg_to_rad c.gyro.z
    let pitch1 := m.pitch + gx * dt
    let yaw1 := m.yaw + gz * dt
    let ax := c.accel.x
    let ay := c.accel.y
    let az := c.accel.z
    let acc_mag := Real.sqrt (ax * ax + ay * ay + az * az)
    let pitch2 :=
      if |acc_mag - 9.81| < ACC_G_TOL then
        let apitch := accel_to_pitch ax ay az
        let err := apitch - pitch1
        if DRIFT_ERR_THRESH < |err| then pitch1 + DRIFT_STEP * err else pitch1
      else pitch1
    { c with motion := { m with last_ts := now, pitch := pitch2, yaw := yaw1 } }

/-- Truncation toward zero, the semantics of Python's `int()` on a float. -/
def truncInt (x : ℝ) : ℤ := if 0 ≤ x then ⌊x⌋ else ⌈x⌉

/-- `compute_axes(c)` at wall-clock time `now`: pointer integration
(gyro x → yaw, gyro y → pitch) with deadzone 0.015, clamp to
±0.6 / ±0.45, then mapping to stick values (division by the clamp
bound, built-in negation on `ry`, inversion flags, ×32767, `int()`).
Returns the updated controller state and the `(RX, RY)` outputs. -/
def compute_axes (now : ℝ) (c : ControllerState) : ControllerState × ℤ × ℤ :=
  let m := c.motion
  if m.last_ts = 0 then ({ c with motion := { m with last_ts := now } }, 0, 0)
  else
    let dt := clamp (now - m.last_ts) 0.001 0.05
    let gx0 := maybe_deg_to_rad c.gyro.x
    let gy0 := maybe_deg_to_rad c.gyro.y
    let gx := if |gx0| < 0.015 then 0 else gx0
    let gy := if |gy0| < 0.015 then 0 else gy0
    let yaw1 := clamp (m.yaw + gx * dt) (-0.6) 0.6
    let pitch1 := clamp (m.pitch + gy * dt) (-0.45) 0.45
    let rx0 := yaw1 / 0.6
    let ry0 := -pitch1 / 0.45
    let rx := if INVERT_RX then -rx0 else rx0
    let ry := if INVERT_RY then -ry0 else ry0
    ({ c with motion := { m with last_ts := now, yaw := yaw1, pitch := pitch1 } },
     truncInt (rx * 32767), truncInt (ry * 32767))

/-! ### Bridge-loop blocks (`bridge_loop`, lines 470–514) -/

/-- The HOME-recenter block (lines 483–493), acting on the motion state
with `home_now = int(buttons.get("HOME", 0))` at time `now`. -/
def recenterStep (now : ℝ) (home_now : ℤ) (m : MotionState) : MotionState :=
  if home_now = 1 then
    match m.home_hold with
    | none => { m with home_hold := some now }
    | some h =>
        if RECENTER_HOLD_SEC ≤ now - h then
          { m with pitch0 := m.pitch, yaw0 := m.yaw,
                   home_hold := some (now + 9999) }
        else m
  else { m with home_hold := none }

/-- Fold of `recenterStep` over a list of `(now, home_now)` ticks. -/
def recenterRun (m : MotionState) (ticks : List (ℝ × ℤ)) : MotionState :=
  ticks.foldl (fun a tk => recenterStep tk.1 tk.2 a) m

/-- Number of ticks of a run at which the recenter branch fires
(i.e. `pitch0` / `yaw0` are captured). -/
def recenterFireCount (m : MotionState) : List (ℝ × ℤ) → ℕ
  | [] => 0
  | tk :: rest =>
      (match m.home_hold with
       | some h => if tk.2 = 1 ∧ RECENTER_HOLD_SEC ≤ tk.1 - h then 1 else 0
       | none => 0) +
      recenterFireCount (recenterStep tk.1 tk.2 m) rest

/-- Ticks all with the HOME button held. -/
def heldTicks (ts : List ℝ) : List (ℝ × ℤ) := ts.map (fun t => (t, 1))

/-- The swing block (lines 497–502): given `ax = accel.x` at time `now`,
returns the updated motion state and the `swing` flag. -/
def swingStep (now ax : ℝ) (m : MotionState) : MotionState × Bool :=
  if SWING_THRESHOLD < |ax| ∧ SWING_COOLDOWN < now - m.last_swing then
    ({ m with last_swing := now }, true)
  else (m, false)

/-- Number of swing events over a run of `(now, ax)` samples. -/
def swingCount (m : MotionState) : List (ℝ × ℝ) → ℕ
  | [] => 0
  | (t, ax) :: rest =>
      (if (swingStep t ax m).2 then 1 else 0) + swingCount (swingStep t ax m).1 rest

/-- The times at which swing events fire over a run of `(now, ax)` samples. -/
def swingTimes (m : MotionState) : List (ℝ × ℝ) → List ℝ
  | [] => []
  | (t, ax) :: rest =>
      if (swingStep t ax m).2 then t :: swingTimes (swingStep t ax m).1 rest
      else swingTimes (swingStep t ax m).1 rest

/-- `int(bool(v))` applied to a button value. -/
def boolInt (v : ℤ) : ℤ := if v = 0 then 0 else 1

/-- The control line assembled by lines 504–513, as the list of
`NAME=value` fields (each `parts` element `f"{key}={value}"` is modelled
as the pair `(key, value)`; `",".join` is the driver-side formatting). -/
def controlLine (btns : String → ℤ) (swing : Bool) (RX RY : ℤ) :
    List (String × ℤ) :=
  (WII_TO_BRIDGE.map fun p => (p.2, boolInt (btns p.1))) ++
    (if swing then [("A", 1)] else []) ++ [("RX", RX), ("RY", RY)]

/-- Number of fields of a control line carrying a given driver name. -/
def fieldCount (parts : List (String × ℤ)) (name : String) : ℕ :=
  (parts.filter fun p => p.1 = name).length

/-- The driver-side button names, in emission order. -/
def driverNames : List String := WII_TO_BRIDGE.map Prod.snd

/-! ### Concrete fixtures used by witnesses and counterexamples -/

/-- A session occupying slot 0: device `"dev"`, token `"tok"`. -/
def sessA : ControllerState :=
  { device_id := "dev", username := "old", addr := ("ip0", 1), token := "tok",
    buttons := fun _ => 0, gyro := Vec3.zero, accel := Vec3.zero,
    motion := MotionState.init }

/-- A registry with slot 0 bound to `sessA`, slots 1–3 free, all
last-seen timestamps 5. -/
def stA : ServerState :=
  { controllers := fun s => if s = 0 then some sessA else none,
    last_seen := fun _ => 5, pkt_count := fun _ => 0, hz_est := fun _ => 0 }

/-- Like `stA` but with per-slot packet counters at 7. -/
def stB : ServerState :=
  { controllers := fun s => if s = 0 then some sessA else none,
    last_seen := fun _ => 5, pkt_count := fun _ => 7, hz_est := fun _ => 0 }

/-- An unauthorized telemetry packet: the device `"dev"` is bound to
slot 0, but the token `"bad"` does not match `"tok"`. -/
def pktBad : TelemetryPacket :=
  { device_id := "dev", token := "bad", buttons := fun _ => 1,
    gyro := ⟨1, 2, 3⟩, accel := ⟨4, 5, 6⟩, addr := ("ip2", 2) }

/-- A controller whose phone reports a pure gyro-y rotation of
1 rad/s, with initialized motion timing (`last_ts = 1`). -/
def sessPointer : ControllerState :=
  { device_id := "d", username := "u", addr := ("ip", 1), token := "t",
    buttons := fun _ => 0, gyro := ⟨0, 1, 0⟩, accel := Vec3.zero,
    motion := { last_ts := 1, pitch := 0, yaw := 0, pitch0 := 0, yaw0 := 0,
                home_hold := none, last_swing := 0 } }

/-- A controller whose phone reports a pure gyro-z rotation of
2 rad/s, with initialized motion timing. -/
def sessAbs : ControllerState :=
  { device_id := "d", username := "u", addr := ("ip", 1), token := "t",
    buttons := fun _ => 0, gyro := ⟨0, 0, 2⟩, accel := Vec3.zero,
    motion := { last_ts := 1, pitch := 0, yaw := 0, pitch0 := 0, yaw0 := 0,
                home_hold := none, last_swing := 0 } }

/-- A controller at rest with the pointer yaw accumulator saturated at
the +0.6 rad clamp. -/
def sessYawMax : ControllerState :=
  { device_id := "d", username := "u", addr := ("ip", 1), token := "t",
    buttons := fun _ => 0, gyro := Vec3.zero, accel := Vec3.zero,
    motion := { last_ts := 1, pitch := 0, yaw := 0.6, pitch0 := 0, yaw0 := 0,
                home_hold := none, last_swing := 0 } }

/-- A controller at rest with the pointer pitch accumulator saturated
at the +0.45 rad clamp. -/
def sessPitchMax : ControllerState :=
  { device_id := "d", username := "u", addr := ("ip", 1), token := "t",
    buttons := fun _ => 0, gyro := Vec3.zero, accel := Vec3.zero,
    motion := { last_ts := 1, pitch := 0.45, yaw := 0, pitch0 := 0, yaw0 := 0,
                home_hold := none, last_swing := 0 } }

/-! ### C1: unauthorized telemetry leaves the registry untouched -/

/-- C1: any telemetry datagram that is not authorized — empty stripped
device id or token, device id bound to no slot, or token differing from
the bound slot's session token — leaves the registry state completely
unchanged (`last_seen`, `buttons`, `gyro`, `accel`, address and packet
counters keep their prior values) and produces no reply datagram. -/
theorem c1_unauthorized_telemetry_no_effect (now : ℝ) (st : ServerState)
    (p : TelemetryPacket) (h : ¬ telemetryAuthorized st p) :
    processTelemetry now st p = (st, none) := by
  by_cases h1 : pyStrip p.device_id = "" ∨ pyStrip p.token = ""
  · rcases h1 with h1 | h1 <;> simp [processTelemetry, h1]
  · push_neg at h1
    obtain ⟨hd, ht⟩ := h1
    rcases hf : findSession st (pyStrip p.device_id) with _ | ⟨slot, c⟩
    · simp [processTelemetry, hf, hd, ht]
    · have htok : c.token ≠ pyStrip p.token := fun he => h ⟨hd, ht, slot, c, hf, he⟩
      simp [processTelemetry, hf, hd, ht, htok]

/-- C1 witness: the mismatching-token packet `pktBad` against `stA`. -/
theorem c1_unauthorized_telemetry_no_effect_witness :
    ¬ telemetryAuthorized stA pktBad ∧
      processTelemetry 3 stA pktBad = (stA, none) := by
  have hna : ¬ telemetryAuthorized stA pktBad := by
    rintro ⟨-, -, slot, c, hf, he⟩
    have hf' : findSession stA (pyStrip pktBad.device_id) = some (0, sessA) := rfl
    rw [hf'] at hf
    simp only [Option.some.injEq, Prod.mk.injEq] at hf
    rw [← hf.2] at he
    exact absurd he (by decide)
  exact ⟨hna, c1_unauthorized_telemetry_no_effect 3 stA pktBad hna⟩

/-! ### C4: re-pairing a known device -/

/-- C4 (amended): a pairing request for a device id already bound to an
occupied slot reuses the slot's existing (non-empty) session token in
the reply — no new token is minted — and updates exactly that session's
display name, network address, and the slot's last-seen timestamp,
leaving the token, the slot binding, the packet/rate statistics, and
every other slot unchanged.  (The original claim says only name and
address change; the code also refreshes the slot's last-seen
timestamp, see the counterexample.) -/
theorem c4_repair_reuses_token (now : ℝ) (st : ServerState)
    (raw_id raw_name : String) (addr : Addr) (fresh : String)
    (slot : Fin MAX_CONTROLLERS) (c : ControllerState)
    (hid : pyStrip raw_id ≠ "")
    (hf : findSession st (pyStrip raw_id) = some (slot, c))
    (htk : c.token ≠ "") :
    pairRequest now st raw_id raw_name addr fresh =
      ({ st with
          controllers := fun s =>
            if s = slot then
              some { c with username := (pyStrip raw_name).take 64, addr := addr }
            else st.controllers s,
          last_seen := fun s => if s = slot then now else st.last_seen s },
       .accept slot c.token DEFAULT_DATA_PORT) := by
  simp [pairRequest, hid, hf, htk]

/-- C4 counterexample to the claim as stated: re-pairing `"dev"` (bound
to slot 0 of `stA`, whose last-seen timestamp is 5) at time 10 changes
the slot's last-seen timestamp to 10, so the operation does not update
*only* the display name and network address. -/
theorem c4_counterexample :
    (pairRequest 10 stA "dev" "new" ("ip1", 2) "fresh").1.last_seen 0 = 10 ∧
      stA.last_seen 0 = 5 ∧ (10 : ℝ) ≠ 5 := by
  refine ⟨rfl, rfl, by norm_num⟩

/-- C4 witness: re-pairing `"dev"` against `stA` replies with the
existing token `"tok"`. -/
theorem c4_repair_reuses_token_witness :
    pyStrip "dev" ≠ "" ∧ sessA.token ≠ "" ∧
      (pairRequest 10 stA "dev" "new" ("ip1", 2) "fresh").2 =
        .accept 0 sessA.token DEFAULT_DATA_PORT := by
  refine ⟨by decide, by decide, ?_⟩
  rw [c4_repair_reuses_token 10 stA "dev" "new" ("ip1", 2) "fresh" 0 sessA
    (by decide) rfl (by decide)]

/-! ### C5: pairing an unknown device -/

/-- C5: a pairing request with a non-empty (stripped) device id bound to
no slot either creates the session in the lowest-indexed empty slot
with the freshly generated token and replies `PAIR_ACCEPT`, or — when no
slot is empty — replies `PAIR_DENY` with reason `NO_FREE_SLOTS` and
leaves the whole registry unmodified. -/
theorem c5_new_device_pairing (now : ℝ) (st : ServerState)
    (raw_id raw_name : String) (addr : Addr) (fresh : String)
    (hid : pyStrip raw_id ≠ "")
    (hf : findSession st (pyStrip raw_id) = none) :
    (∀ free, firstFree st = some free →
      (st.controllers free).isNone ∧ (∀ s, s < free → (st.controllers s).isSome) ∧
        pairRequest now st raw_id raw_name addr fresh =
          ({ st with
              controllers := fun s =>
                if s = free then
                  some { device_id := pyStrip raw_id,
                         username := (pyStrip raw_name).take 64,
                         addr := addr, token := fresh,
                         buttons := fun _ => 0, gyro := Vec3.zero,
                         accel := Vec3.zero, motion := MotionState.init }
                else st.controllers s,
              last_seen := fun s => if s = free then now else st.last_seen s },
           .accept free fresh DEFAULT_DATA_PORT)) ∧
    (firstFree st = none →
      pairRequest now st raw_id raw_name addr fresh = (st, .deny "NO_FREE_SLOTS")) := by
  constructor
  · intro free hfree
    refine ⟨?_, ?_, by simp [pairRequest, hid, hf, hfree]⟩
    · have := List.find?_some hfree
      simpa using this
    · intro s hs
      by_cases h0 : (st.controllers 0).isNone <;>
        by_cases h1 : (st.controllers 1).isNone <;>
        by_cases h2 : (st.controllers 2).isNone <;>
        by_cases h3 : (st.controllers 3).isNone <;>
        simp [firstFree, slotIndices, List.find?, h0, h1, h2, h3] at hfree <;>
        subst hfree <;>
        fin_cases s <;>
        simp_all [Fin.lt_def, Option.isSome_iff_ne_none, Option.isNone_iff_eq_none] <;>
        first
        | exact h0
        | exact h1
        | exact h2
        | exact h3
        | omega
        | exact absurd hs (by decide)
  · intro hfree
    simp [pairRequest, hid, hf, hfree]

/-- C5 witness: pairing the new device `"nd"` against `stA` (slot 0
occupied by `"dev"`, slots 1–3 free) allocates slot 1, the lowest free
index, with the fresh token. -/
theorem c5_new_device_pairing_witness :
    pyStrip "nd" ≠ "" ∧
      (pairRequest 10 stA "nd" "Phone" ("ip3", 3) "fresh").2 =
        .accept 1 "fresh" DEFAULT_DATA_PORT := by
  refine ⟨by decide, ?_⟩
  rw [((c5_new_device_pairing 10 stA "nd" "Phone" ("ip3", 3) "fresh"
    (by decide) rfl).1 1 rfl).2.2]

/-! ### C6: session destruction and derived statistics -/

/-- C6 (amended): destruction by the liveness monitor (slot occupied and
last seen more than 2.0 s before `now`) resets the slot to empty and
clears both derived statistics — the rate estimate and the packet
counter — while slots not meeting the condition are untouched; an
explicit external disconnect resets the slot and clears the rate
estimate, but leaves that slot's packet counter unchanged (contrary to
the original claim), and does not affect any other slot. -/
theorem c6_destruction_clears_stats :
    (∀ (now : ℝ) (st : ServerState) (s : Fin MAX_CONTROLLERS),
      (st.controllers s).isSome → TIMEOUT_SEC < now - st.last_seen s →
        (evictPass now st).controllers s = none ∧
        (evictPass now st).last_seen s = 0 ∧
        (evictPass now st).hz_est s = 0 ∧
        (evictPass now st).pkt_count s = 0) ∧
    (∀ (now : ℝ) (st : ServerState) (s : Fin MAX_CONTROLLERS),
      ¬((st.controllers s).isSome ∧ TIMEOUT_SEC < now - st.last_seen s) →
        (evictPass now st).controllers s = st.controllers s ∧
        (evictPass now st).last_seen s = st.last_seen s ∧
        (evictPass now st).hz_est s = st.hz_est s ∧
        (evictPass now st).pkt_count s = st.pkt_count s) ∧
    (∀ (st : ServerState) (slot : Fin MAX_CONTROLLERS),
      (disconnect_slot st slot).controllers slot = none ∧
      (disconnect_slot st slot).last_seen slot = 0 ∧
      (disconnect_slot st slot).hz_est slot = 0 ∧
      (disconnect_slot st slot).pkt_count slot = st.pkt_count slot ∧
      (∀ s, s ≠ slot →
        (disconnect_slot st slot).controllers s = st.controllers s ∧
        (disconnect_slot st slot).last_seen s = st.last_seen s ∧
        (disconnect_slot st slot).hz_est s = st.hz_est s ∧
        (disconnect_slot st slot).pkt_count s = st.pkt_count s)) := by
  refine ⟨?_, ?_, ?_⟩
  · intro now st s hocc hold
    simp [evictPass, hocc, hold]
  · intro now st s hno
    simp only [evictPass]
    simp [if_neg hno]
  · intro st slot
    refine ⟨by simp [disconnect_slot], by simp [disconnect_slot],
      by simp [disconnect_slot], by simp [disconnect_slot], ?_⟩
    intro s hs
    simp [disconnect_slot, hs]

/-- C6 counterexample to the claim as stated: the explicit disconnect of
slot 0 of `stB` (whose packet counter is 7) leaves the packet counter
at 7 instead of clearing it. -/
theorem c6_counterexample :
    (disconnect_slot stB 0).pkt_count 0 = 7 ∧ (7 : ℕ) ≠ 0 := by
  exact ⟨rfl, by norm_num⟩

/-! ### C2: the two integrators share one accumulator pair -/

/-- C2: the claim asserts that the drift-corrected absolute-orientation
pitch and the pointer-axis accumulators are independent.  In the code
both `update_motion` and `compute_axes` read and write the *same*
`motion.pitch` / `motion.yaw` fields: at the inputs below the
pointer-axis computation changes the drift-corrected pitch field
(0 → 0.05), and the drift-corrected update changes the pointer yaw
accumulator (0 → 0.04).  This evaluates the code at the failing inputs
of the code_bug report. -/
theorem c2_shared_accumulators :
    (compute_axes 1.05 sessPointer).1.motion.pitch = 0.05 ∧
    sessPointer.motion.pitch = 0 ∧
    (update_motion 1.02 sessAbs).motion.yaw = 0.04 ∧
    sessAbs.motion.yaw = 0 ∧
    (0.05 : ℝ) ≠ 0 ∧ (0.04 : ℝ) ≠ 0 := by
  refine ⟨?_, rfl, ?_, rfl, by norm_num, by norm_num⟩
  · norm_num [compute_axes, sessPointer, clamp, maybe_deg_to_rad,
      min_def, max_def]
  · norm_num [update_motion, sessAbs, Vec3.zero, clamp, maybe_deg_to_rad,
      min_def, max_def, DT_MIN, DT_MAX, ACC_G_TOL, Real.sqrt_zero]

/-! ### C3: the stick mapping -/

/-- Lower and upper clamp bounds of `clamp`. -/
theorem clamp_mem (v lo hi : ℝ) (h : lo ≤ hi) :
    lo ≤ clamp v lo hi ∧ clamp v lo hi ≤ hi :=
  ⟨le_max_left _ _, max_le h (min_le_left _ _)⟩

/-- Truncation toward zero stays within a symmetric integer bound. -/
theorem truncInt_bounds (x : ℝ) (hx : |x| ≤ 32767) :
    -32767 ≤ truncInt x ∧ truncInt x ≤ 32767 := by
  obtain ⟨hlo, hhi⟩ := abs_le.mp hx
  unfold truncInt
  split
  next h0 =>
    refine ⟨?_, ?_⟩
    · have h1 : (0 : ℤ) ≤ ⌊x⌋ := Int.floor_nonneg.mpr h0
      omega
    · have h1 : (⌊x⌋ : ℝ) ≤ x := Int.floor_le x
      exact_mod_cast h1.trans hhi
  next h0 =>
    refine ⟨?_, ?_⟩
    · have h1 : x ≤ (⌈x⌉ : ℝ) := Int.le_ceil x
      exact_mod_cast hlo.trans h1
    · have h1 : ⌈x⌉ ≤ (0 : ℤ) := Int.ceil_le.mpr (by exact_mod_cast le_of_not_le h0)
      omega

/-- Both signs of the normalized-and-scaled value stay within the
16-bit stick range. -/
theorem truncInt_scale_bounds (y b : ℝ) (hb : 0 < b) (h1 : -b ≤ y) (h2 : y ≤ b) :
    (-32767 ≤ truncInt (-(y / b) * 32767) ∧ truncInt (-(y / b) * 32767) ≤ 32767) ∧
    (-32767 ≤ truncInt (y / b * 32767) ∧ truncInt (y / b * 32767) ≤ 32767) := by
  have hy : |y / b| ≤ 1 := by
    rw [abs_div, abs_of_pos hb, div_le_one hb]
    exact abs_le.mpr ⟨h1, h2⟩
  have habs : ∀ z : ℝ, |z| ≤ 1 → |z * 32767| ≤ 32767 := by
    intro z hz
    rw [abs_mul, abs_of_pos (by norm_num : (0:ℝ) < 32767)]
    nlinarith [abs_nonneg z]
  have h3 : |(-(y / b)) * 32767| ≤ 32767 := habs _ (by rw [abs_neg]; exact hy)
  have h4 : |y / b * 32767| ≤ 32767 := habs _ hy
  exact ⟨truncInt_bounds _ h3, truncInt_bounds _ h4⟩

/-- Modelled from the spec's words for the claim C3 mapping (for the
counterexample): normalize the accumulated value to [-1, 1] by dividing
by its clamp bound, negate it when the corresponding inversion flag is
set, then scale by 32767 truncating toward zero. -/
def claimStick (v bound : ℝ) (invert : Bool) : ℤ :=
  truncInt ((if invert then -(v / bound) else v / bound) * 32767)

/-- C3 (amended): whenever the pointer integrator is initialized, the
emitted stick pair is `RX = int(-(yaw1 / 0.6) * 32767)` and
`RY = int((pitch1 / 0.45) * 32767)` where `yaw1`, `pitch1` are the
post-integration clamped accumulators stored back into the motion
state — i.e. the code negates `ry` *before* applying `INVERT_RY`, so
with both inversion flags set the pitch axis comes out un-negated —
and both outputs lie within ±32767. -/
theorem c3_stick_mapping (c : ControllerState) (now : ℝ)
    (h : c.motion.last_ts ≠ 0) :
    ((compute_axes now c).2.1 =
        truncInt (-((compute_axes now c).1.motion.yaw / 0.6) * 32767) ∧
      (compute_axes now c).2.2 =
        truncInt ((compute_axes now c).1.motion.pitch / 0.45 * 32767)) ∧
    (-32767 ≤ (compute_axes now c).2.1 ∧ (compute_axes now c).2.1 ≤ 32767 ∧
      -32767 ≤ (compute_axes now c).2.2 ∧ (compute_axes now c).2.2 ≤ 32767) := by
  have hyb := clamp_mem (c.motion.yaw +
    (if |maybe_deg_to_rad c.gyro.x| < 0.015 then 0 else maybe_deg_to_rad c.gyro.x) *
      clamp (now - c.motion.last_ts) 0.001 0.05) (-0.6) 0.6 (by norm_num)
  have hpb := clamp_mem (c.motion.pitch +
    (if |maybe_deg_to_rad c.gyro.y| < 0.015 then 0 else maybe_deg_to_rad c.gyro.y) *
      clamp (now - c.motion.last_ts) 0.001 0.05) (-0.45) 0.45 (by norm_num)
  have hry := truncInt_scale_bounds _ 0.6 (by norm_num) hyb.1 hyb.2
  have hrp := truncInt_scale_bounds _ 0.45 (by norm_num) hpb.1 hpb.2
  simp only [compute_axes, if_neg h, INVERT_RX, INVERT_RY, if_true]
  refine ⟨⟨trivial, ?_⟩, ?_, ?_, ?_, ?_⟩
  · rw [neg_div, neg_neg]
  · exact hry.1.1
  · exact hry.1.2
  · rw [neg_div, neg_neg]
    exact hrp.2.1
  · rw [neg_div, neg_neg]
    exact hrp.2.2

/-- C3 counterexample to the claim as stated: with the pointer pitch
accumulator at its clamp bound 0.45 and `INVERT_RY = true`, the code
emits `RY = 32767`, while the claimed mapping (divide by the bound,
then negate for the set inversion flag) predicts `-32767`. -/
theorem c3_counterexample :
    (compute_axes 1.001 sessPitchMax).1.motion.pitch = 0.45 ∧
    (compute_axes 1.001 sessPitchMax).2.2 = 32767 ∧
    claimStick 0.45 0.45 INVERT_RY = -32767 ∧
    (32767 : ℤ) ≠ -32767 := by
  have e1 : ((0.45:ℝ) / 0.45) * 32767 = ((32767 : ℤ) : ℝ) := by norm_num
  have e2 : (-((0.45:ℝ) / 0.45)) * 32767 = ((-32767 : ℤ) : ℝ) := by norm_num
  refine ⟨?_, ?_, ?_, by norm_num⟩
  · norm_num [compute_axes, sessPitchMax, Vec3.zero, clamp, maybe_deg_to_rad,
      min_def, max_def]
  · norm_num [compute_axes, sessPitchMax, Vec3.zero, clamp, maybe_deg_to_rad,
      min_def, max_def, INVERT_RY, truncInt, neg_div, neg_neg, e1,
      Int.floor_intCast]
  · norm_num [claimStick, INVERT_RY, truncInt, e2, Int.ceil_intCast]
    rw [show ((-32767 : ℝ)) = ((-32767 : ℤ) : ℝ) by norm_num]
    exact Int.ceil_intCast _

/-- C3 witness: applying the amended mapping theorem to the saturated
yaw state recovers the claim's example `RX = -32767`. -/
theorem c3_stick_mapping_witness :
    sessYawMax.motion.last_ts ≠ 0 ∧
      (compute_axes 1.001 sessYawMax).2.1 = -32767 := by
  have h : sessYawMax.motion.last_ts ≠ 0 := by
    show (1:ℝ) ≠ 0
    norm_num
  refine ⟨h, ?_⟩
  rw [(c3_stick_mapping sessYawMax 1.001 h).1.1]
  have hyaw : (compute_axes 1.001 sessYawMax).1.motion.yaw = 0.6 := by
    norm_num [compute_axes, sessYawMax, Vec3.zero, clamp, maybe_deg_to_rad,
      min_def, max_def]
  rw [hyaw]
  have e2 : (-((0.6:ℝ) / 0.6)) * 32767 = ((-32767 : ℤ) : ℝ) := by norm_num
  norm_num [truncInt, e2, Int.ceil_intCast]
  rw [show ((-32767 : ℝ)) = ((-32767 : ℤ) : ℝ) by norm_num]
  exact Int.ceil_intCast _

/-- C6 witness: eviction at time 10 clears slot 0 of `stB` (last seen
at 5) including its packet counter, and a disconnect of slot 0 keeps
the packet counter. -/
theorem c6_destruction_clears_stats_witness :
    (stB.controllers 0).isSome ∧ TIMEOUT_SEC < (10 : ℝ) - stB.last_seen 0 ∧
      (evictPass 10 stB).pkt_count 0 = 0 ∧
      (disconnect_slot stB 0).pkt_count 0 = stB.pkt_count 0 := by
  have h1 : (stB.controllers 0).isSome := rfl
  have h2 : TIMEOUT_SEC < (10 : ℝ) - stB.last_seen 0 := by
    show TIMEOUT_SEC < (10 : ℝ) - 5
    norm_num [TIMEOUT_SEC]
  exact ⟨h1, h2, (c6_destruction_clears_stats.1 10 stB 0 h1 h2).2.2.2,
    (c6_destruction_clears_stats.2.2 stB 0).2.2.2.1⟩

/-! ### C7: the HOME-recenter gesture -/

/-- A motion state with pointer angles (0.2, 0.3) and no pending HOME
hold. -/
def m7 : MotionState :=
  { last_ts := 0, pitch := 0.2, yaw := 0.3, pitch0 := 0, yaw0 := 0,
    home_hold := none, last_swing := 0 }

/-- Held ticks that all miss the threshold leave the state untouched
and fire nothing. -/
theorem recenterRun_no_fire (m : MotionState) (h : ℝ)
    (hm : m.home_hold = some h) (ts : List ℝ)
    (hlt : ∀ t ∈ ts, t - h < RECENTER_HOLD_SEC) :
    recenterRun m (heldTicks ts) = m ∧
      recenterFireCount m (heldTicks ts) = 0 := by
  induction ts with
  | nil => exact ⟨rfl, rfl⟩
  | cons t ts ih =>
    have hstep : recenterStep t 1 m = m := by
      simp [recenterStep, hm, not_le.mpr (hlt t (List.mem_cons_self t ts))]
    have htail : ∀ t' ∈ ts, t' - h < RECENTER_HOLD_SEC :=
      fun t' ht' => hlt t' (List.mem_cons_of_mem t ht')
    refine ⟨?_, ?_⟩
    · show recenterRun (recenterStep t 1 m) (heldTicks ts) = m
      rw [hstep]
      exact (ih htail).1
    · show (match m.home_hold with
        | some h' => if (1:ℤ) = 1 ∧ RECENTER_HOLD_SEC ≤ t - h' then 1 else 0
        | none => 0) + recenterFireCount (recenterStep t 1 m) (heldTicks ts) = 0
      rw [hm, hstep]
      simp [not_le.mpr (hlt t (List.mem_cons_self t ts)), (ih htail).2]

/-- Once the hold timer is armed at `t0` and some held tick reaches the
0.6 s threshold (the whole hold staying within the 9999 s guard), the
recenter fires exactly once and captures the current pointer angles. -/
theorem recenterRun_fire (m : MotionState) (t0 : ℝ)
    (hm : m.home_hold = some t0) (ts : List ℝ)
    (hub : ∀ t ∈ ts, t ≤ t0 + 9999)
    (hex : ∃ t ∈ ts, RECENTER_HOLD_SEC ≤ t - t0) :
    recenterFireCount m (heldTicks ts) = 1 ∧
      (recenterRun m (heldTicks ts)).pitch0 = m.pitch ∧
      (recenterRun m (heldTicks ts)).yaw0 = m.yaw := by
  induction ts generalizing m with
  | nil => exact absurd hex (by simp)
  | cons t ts ih =>
    by_cases hfire : RECENTER_HOLD_SEC ≤ t - t0
    · have hstep : recenterStep t 1 m =
          { m with pitch0 := m.pitch, yaw0 := m.yaw,
                   home_hold := some (t + 9999) } := by
        simp [recenterStep, hm, hfire]
      have htail : ∀ t' ∈ ts, t' - (t + 9999) < RECENTER_HOLD_SEC := by
        intro t' ht'
        have h1 := hub t' (List.mem_cons_of_mem t ht')
        have h2 : RECENTER_HOLD_SEC = 0.60 := rfl
        rw [h2] at hfire ⊢
        linarith
      have hnf := recenterRun_no_fire
        { m with pitch0 := m.pitch, yaw0 := m.yaw, home_hold := some (t + 9999) }
        (t + 9999) rfl ts htail
      refine ⟨?_, ?_, ?_⟩
      · show (match m.home_hold with
          | some h' => if (1:ℤ) = 1 ∧ RECENTER_HOLD_SEC ≤ t - h' then 1 else 0
          | none => 0) + recenterFireCount (recenterStep t 1 m) (heldTicks ts) = 1
        rw [hm, hstep]
        simp [hfire, hnf.2]
      · show (recenterRun (recenterStep t 1 m) (heldTicks ts)).pitch0 = m.pitch
        rw [hstep, hnf.1]
      · show (recenterRun (recenterStep t 1 m) (heldTicks ts)).yaw0 = m.yaw
        rw [hstep, hnf.1]
    · have hstep : recenterStep t 1 m = m := by
        simp [recenterStep, hm, hfire]
      have hex' : ∃ t' ∈ ts, RECENTER_HOLD_SEC ≤ t' - t0 := by
        rcases hex with ⟨t', ht', hge⟩
        rcases List.mem_cons.mp ht' with h | h
        · exact absurd (h ▸ hge) hfire
        · exact ⟨t', h, hge⟩
      have hub' : ∀ t' ∈ ts, t' ≤ t0 + 9999 :=
        fun t' ht' => hub t' (List.mem_cons_of_mem t ht')
      have := ih m hm hub' hex'
      refine ⟨?_, ?_, ?_⟩
      · show (match m.home_hold with
          | some h' => if (1:ℤ) = 1 ∧ RECENTER_HOLD_SEC ≤ t - h' then 1 else 0
          | none => 0) + recenterFireCount (recenterStep t 1 m) (heldTicks ts) = 1
        rw [hm, hstep]
        simp [hfire, this.1]
      · show (recenterRun (recenterStep t 1 m) (heldTicks ts)).pitch0 = m.pitch
        rw [hstep]
        exact this.2.1
      · show (recenterRun (recenterStep t 1 m) (heldTicks ts)).yaw0 = m.yaw
        rw [hstep]
        exact this.2.2

/-- C7 (amended): starting with no pending hold, over the held ticks
`t0 :: ts` (the hold staying within the 9999 s re-arm guard the code
installs after firing): if some later tick is at least 0.6 s after the
first, the zero references are captured from the current pointer angles
exactly once; if every tick stays under 0.6 s, nothing fires and a
release tick leaves the state unchanged except for clearing the hold
timer.  (The original claim omits the 9999 s bound; see the
counterexample for a longer hold that fires twice.) -/
theorem c7_recenter_hold (m : MotionState) (hm : m.home_hold = none)
    (t0 tr : ℝ) (ts : List ℝ) (hub : ∀ t ∈ ts, t ≤ t0 + 9999) :
    ((∃ t ∈ ts, RECENTER_HOLD_SEC ≤ t - t0) →
        recenterFireCount m (heldTicks (t0 :: ts)) = 1 ∧
        (recenterRun m (heldTicks (t0 :: ts))).pitch0 = m.pitch ∧
        (recenterRun m (heldTicks (t0 :: ts))).yaw0 = m.yaw) ∧
    ((∀ t ∈ ts, t - t0 < RECENTER_HOLD_SEC) →
        recenterFireCount m (heldTicks (t0 :: ts)) = 0 ∧
        recenterRun m (heldTicks (t0 :: ts) ++ [(tr, 0)]) =
          { m with home_hold := none }) := by
  have hstep : recenterStep t0 1 m = { m with home_hold := some t0 } := by
    simp [recenterStep, hm]
  constructor
  · intro hex
    have hf := recenterRun_fire { m with home_hold := some t0 } t0 rfl ts hub hex
    refine ⟨?_, ?_, ?_⟩
    · show (match m.home_hold with
        | some h' => if (1:ℤ) = 1 ∧ RECENTER_HOLD_SEC ≤ t0 - h' then 1 else 0
        | none => 0) + recenterFireCount (recenterStep t0 1 m) (heldTicks ts) = 1
      rw [hm, hstep]
      simpa using hf.1
    · show (recenterRun (recenterStep t0 1 m) (heldTicks ts)).pitch0 = m.pitch
      rw [hstep]
      exact hf.2.1
    · show (recenterRun (recenterStep t0 1 m) (heldTicks ts)).yaw0 = m.yaw
      rw [hstep]
      exact hf.2.2
  · intro hlt
    have hnf := recenterRun_no_fire { m with home_hold := some t0 } t0 rfl ts hlt
    refine ⟨?_, ?_⟩
    · show (match m.home_hold with
        | some h' => if (1:ℤ) = 1 ∧ RECENTER_HOLD_SEC ≤ t0 - h' then 1 else 0
        | none => 0) + recenterFireCount (recenterStep t0 1 m) (heldTicks ts) = 0
      rw [hm, hstep]
      simpa using hnf.2
    · have : heldTicks (t0 :: ts) ++ [(tr, 0)] =
          ((t0, 1) :: heldTicks ts) ++ [(tr, 0)] := rfl
      rw [this]
      show recenterRun (recenterStep t0 1 m) (heldTicks ts ++ [(tr, 0)]) =
        { m with home_hold := none }
      rw [recenterRun, List.foldl_append, hstep]
      have h1 := hnf.1
      rw [recenterRun] at h1
      rw [h1]
      simp [recenterStep]

/-- C7 counterexample to the claim as stated: a single continuous hold
with ticks at 0, 0.7 and 10000.4 s fires the recenter twice, because
firing merely pushes the hold timer 9999 s into the future instead of
disarming it for the rest of the hold. -/
theorem c7_counterexample :
    recenterFireCount m7 (heldTicks [0, 0.7, 10000.4]) = 2 ∧ (2 : ℕ) ≠ 1 := by
  refine ⟨?_, by norm_num⟩
  norm_num [recenterFireCount, recenterStep, heldTicks, RECENTER_HOLD_SEC, m7]

/-- C7 witness: a hold with ticks at 1, 1.3 and 1.61 s (0.61 s of hold)
fires exactly once and captures the pointer angles (0.2, 0.3). -/
theorem c7_recenter_hold_witness :
    m7.home_hold = none ∧ (∀ t ∈ [(1.3 : ℝ), 1.61], t ≤ 1 + 9999) ∧
      recenterFireCount m7 (heldTicks ((1 : ℝ) :: [1.3, 1.61])) = 1 ∧
      (recenterRun m7 (heldTicks ((1 : ℝ) :: [1.3, 1.61]))).pitch0 = 0.2 := by
  have hub : ∀ t ∈ [(1.3 : ℝ), 1.61], t ≤ 1 + 9999 := by
    intro t ht
    rcases List.mem_cons.mp ht with h | h
    · rw [h]; norm_num
    · simp only [List.mem_singleton] at h
      rw [h]; norm_num
  have hex : ∃ t ∈ [(1.3 : ℝ), 1.61], RECENTER_HOLD_SEC ≤ t - 1 :=
    ⟨1.61, by simp, by norm_num [RECENTER_HOLD_SEC]⟩
  have h := (c7_recenter_hold m7 rfl 1 0 [1.3, 1.61] hub).1 hex
  exact ⟨rfl, hub, h.1, h.2.1⟩

/-! ### C8: the swing gesture -/

/-- Swing fire times are always spaced more than the cooldown apart,
and the first one is more than the cooldown after the initial
`last_swing`. -/
theorem swingTimes_spacing (m : MotionState) (ticks : List (ℝ × ℝ)) :
    List.Chain' (fun a b => SWING_COOLDOWN < b - a) (swingTimes m ticks) ∧
      (∀ t, (swingTimes m ticks).head? = some t →
        SWING_COOLDOWN < t - m.last_swing) := by
  induction ticks generalizing m with
  | nil => exact ⟨List.chain'_nil, fun t ht => by simp [swingTimes] at ht⟩
  | cons tk ticks ih =>
    obtain ⟨t, ax⟩ := tk
    by_cases hc : SWING_THRESHOLD < |ax| ∧ SWING_COOLDOWN < t - m.last_swing
    · have hstep : swingStep t ax m = ({ m with last_swing := t }, true) := by
        simp [swingStep, hc]
      have hun : swingTimes m ((t, ax) :: ticks) =
          t :: swingTimes { m with last_swing := t } ticks := by
        rw [swingTimes, hstep]
        simp
      have iht := ih { m with last_swing := t }
      constructor
      · rw [hun]
        refine List.chain'_cons'.mpr ⟨?_, iht.1⟩
        intro y hy
        have := iht.2 y hy
        simpa using this
      · intro t' ht'
        rw [hun] at ht'
        simp only [List.head?_cons, Option.some.injEq] at ht'
        rw [← ht']
        exact hc.2
    · have hstep : swingStep t ax m = (m, false) := by
        simp only [swingStep, if_neg hc]
      have hun : swingTimes m ((t, ax) :: ticks) = swingTimes m ticks := by
        rw [swingTimes, hstep]
        simp
      rw [hun]
      exact ih m

/-- C8 (amended): a swing event fires on a tick exactly when the
accelerometer x magnitude exceeds 2.3 *and strictly more than* 0.25 s
have elapsed since the last trigger (the code's comparison is strict,
see the counterexample at exactly 0.25 s); consequently consecutive
swing events are always more than 0.25 s apart, and three samples of
x = 3.0 spaced 0.1 s apart (starting past the cooldown) produce exactly
one event. -/
theorem c8_swing_gesture :
    (∀ (now ax : ℝ) (m : MotionState),
        (swingStep now ax m).2 = true ↔
          (SWING_THRESHOLD < |ax| ∧ SWING_COOLDOWN < now - m.last_swing)) ∧
    (∀ (m : MotionState) (ticks : List (ℝ × ℝ)),
        List.Chain' (fun a b => SWING_COOLDOWN < b - a) (swingTimes m ticks)) ∧
    swingCount MotionState.init [(1, 3), (1.1, 3), (1.2, 3)] = 1 := by
  refine ⟨?_, ?_, ?_⟩
  · intro now ax m
    by_cases hc : SWING_THRESHOLD < |ax| ∧ SWING_COOLDOWN < now - m.last_swing <;>
      simp [swingStep, hc]
  · intro m ticks
    exact (swingTimes_spacing m ticks).1
  · norm_num [swingCount, swingStep, MotionState.init, SWING_THRESHOLD,
      SWING_COOLDOWN, abs_of_pos]

/-- C8 counterexample to the claim as stated: with `last_swing = 0`, a
sample of x = 3.0 at exactly 0.25 s satisfies the claim's condition
(magnitude above 2.3, at least 0.25 s elapsed) yet fires no event,
because the code's cooldown comparison is strict. -/
theorem c8_counterexample :
    (swingStep 0.25 3 MotionState.init).2 = false ∧
      SWING_THRESHOLD < |(3 : ℝ)| ∧
      SWING_COOLDOWN ≤ 0.25 - MotionState.init.last_swing := by
  refine ⟨?_, by rw [abs_of_pos] <;> norm_num [SWING_THRESHOLD], ?_⟩
  · norm_num [swingStep, MotionState.init, SWING_COOLDOWN]
  · norm_num [SWING_COOLDOWN, MotionState.init]

/-! ### C9: pitch integration under the drift correction -/

/-- Fold of `update_motion` over a list of wall-clock tick times (the
successive `time.time()` values seen by the bridge loop). -/
def runMotion (c : ControllerState) (ts : List ℝ) : ControllerState :=
  ts.foldl (fun a t => update_motion t a) c

/-- Tick times `1 + k/40` for `k = 1..n`: uniform 25 ms ticks starting
from an initialized `last_ts = 1`, spanning `n/40` seconds. -/
def ticksC9 (n : ℕ) : List ℝ :=
  (List.range n).map fun k => 1 + ((k : ℝ) + 1) / 40

/-- The C9 scenario controller: constant gyro x-rate 0.1 rad/s,
constant accelerometer sample `a`, motion pitch `p`, `last_ts = t`. -/
def mkC9 (a : Vec3) (p t : ℝ) : ControllerState :=
  { device_id := "d", username := "u", addr := ("ip", 1), token := "t",
    buttons := fun _ => 0, gyro := ⟨0.1, 0, 0⟩, accel := a,
    motion := { last_ts := t, pitch := p, yaw := 0, pitch0 := 0, yaw0 := 0,
                home_hold := none, last_swing := 0 } }

/-- Absolute value on ℚ by explicit case split. -/
def ratAbs (q : ℚ) : ℚ := if q < 0 then -q else q

theorem ratAbs_eq (q : ℚ) : ratAbs q = |q| := by
  unfold ratAbs
  split
  next h => exact (abs_of_neg h).symm
  next h => exact (abs_of_nonneg (le_of_not_lt h)).symm

/-- Rational shadow of one `update_motion` tick of the C9 scenario with
accelerometer (0, 0, 9.81): `dt = 1/40`, gyro term `1/10 * 1/40`, and
the complementary-filter correction toward the accelerometer-derived
pitch 0 firing when the error magnitude exceeds 3/100
(`DRIFT_STEP = 3/200`). -/
def stepQ (p : ℚ) : ℚ :=
  let p1 := p + 1/10 * (1/40)
  let err := 0 - p1
  if 3/100 < ratAbs err then p1 + 3/200 * err else p1

/-- Rational shadow of one tick with the accelerometer out of the
gravity band: pure integration. -/
def stepQz (p : ℚ) : ℚ := p + 1/10 * (1/40)

/-- One C9 tick with in-band accelerometer (0, 0, 9.81) follows the
rational recurrence `stepQ`. -/
theorem c9_step_inband (p : ℚ) (t : ℝ) (ht : t ≠ 0) :
    update_motion (t + 1/40) (mkC9 ⟨0, 0, 9.81⟩ (↑p) t) =
      mkC9 ⟨0, 0, 9.81⟩ (↑(stepQ p)) (t + 1/40) := by
  have hdt : clamp (t + 1/40 - t) DT_MIN DT_MAX = (1/40 : ℝ) := by
    rw [show t + 1/40 - t = (1/40 : ℝ) by ring]
    simp only [clamp, DT_MIN, DT_MAX, min_self]
    rw [max_eq_right (by norm_num)]
  have hgx : maybe_deg_to_rad (0.1 : ℝ) = 0.1 := by
    have hn : ¬((20:ℝ) < |(0.1:ℝ)|) := by
      rw [abs_of_pos (by norm_num : (0:ℝ) < 0.1)]
      norm_num
    simp only [maybe_deg_to_rad, if_neg hn]
  have hgz : maybe_deg_to_rad (0 : ℝ) = 0 := by
    have hn : ¬((20:ℝ) < |(0:ℝ)|) := by norm_num
    simp only [maybe_deg_to_rad, if_neg hn]
  have hmag : Real.sqrt ((0:ℝ) * 0 + 0 * 0 + 9.81 * 9.81) = 9.81 := by
    rw [show ((0:ℝ) * 0 + 0 * 0 + 9.81 * 9.81) = 9.81 ^ 2 by ring]
    exact Real.sqrt_sq (by norm_num)
  have hap : accel_to_pitch 0 0 9.81 = 0 := by
    simp only [accel_to_pitch]
    rw [show ((0:ℝ) * 0 + 9.81 * 9.81) = 9.81 ^ 2 by ring,
      Real.sqrt_sq (by norm_num : (0:ℝ) ≤ 9.81),
      if_neg (by norm_num : ¬((9.81:ℝ) < 1e-6))]
    norm_num [Real.arctan_zero]
  have hband : |(9.81:ℝ) - 9.81| < ACC_G_TOL := by
    rw [ACC_G_TOL]
    norm_num
  have hds : DRIFT_STEP = (0.015 : ℝ) := by
    rw [DRIFT_STEP, CF_ALPHA]
    norm_num
  have hcast : |(0:ℝ) - ((p:ℝ) + 0.1 * (1/40))| =
      ((|0 - (p + 1/10 * (1/40))| : ℚ) : ℝ) := by
    push_cast
    norm_num
  have hcond : (DRIFT_ERR_THRESH < |(0:ℝ) - ((p:ℝ) + 0.1 * (1/40))|) ↔
      (3/100 < ratAbs (0 - (p + 1/10 * (1/40)))) := by
    rw [ratAbs_eq, DRIFT_ERR_THRESH, hcast,
      show (0.03:ℝ) = ((3/100 : ℚ) : ℝ) by norm_num]
    exact Rat.cast_lt
  simp only [update_motion, mkC9, if_neg ht, hdt, hgx, hgz, hmag, hap, hband,
    if_true, hds, stepQ]
  by_cases hc : (3:ℚ)/100 < ratAbs (0 - (p + 1/10 * (1/40)))
  · rw [if_pos (hcond.mpr hc), if_pos hc]
    simp only [ControllerState.mk.injEq, MotionState.mk.injEq, true_and, and_true]
    constructor
    · push_cast
      ring
    · norm_num
  · rw [if_neg fun hr => hc (hcond.mp hr), if_neg hc]
    simp only [ControllerState.mk.injEq, MotionState.mk.injEq, true_and, and_true]
    constructor
    · push_cast
      ring
    · norm_num

/-- One C9 tick with a zero accelerometer (out of the gravity band, so
the correction is skipped) is pure integration. -/
theorem c9_step_noacc (p : ℚ) (t : ℝ) (ht : t ≠ 0) :
    update_motion (t + 1/40) (mkC9 Vec3.zero (↑p) t) =
      mkC9 Vec3.zero (↑(stepQz p)) (t + 1/40) := by
  have hdt : clamp (t + 1/40 - t) DT_MIN DT_MAX = (1/40 : ℝ) := by
    rw [show t + 1/40 - t = (1/40 : ℝ) by ring]
    simp only [clamp, DT_MIN, DT_MAX, min_self]
    rw [max_eq_right (by norm_num)]
  have hgx : maybe_deg_to_rad (0.1 : ℝ) = 0.1 := by
    have hn : ¬((20:ℝ) < |(0.1:ℝ)|) := by
      rw [abs_of_pos (by norm_num : (0:ℝ) < 0.1)]
      norm_num
    simp only [maybe_deg_to_rad, if_neg hn]
  have hgz : maybe_deg_to_rad (0 : ℝ) = 0 := by
    have hn : ¬((20:ℝ) < |(0:ℝ)|) := by norm_num
    simp only [maybe_deg_to_rad, if_neg hn]
  have hmag : Real.sqrt ((0:ℝ) * 0 + 0 * 0 + 0 * 0) = 0 := by
    rw [show ((0:ℝ) * 0 + 0 * 0 + 0 * 0) = 0 by ring]
    exact Real.sqrt_zero
  have hband : ¬(|(0:ℝ) - 9.81| < ACC_G_TOL) := by
    rw [ACC_G_TOL]
    rw [show |(0:ℝ) - 9.81| = 9.81 by rw [abs_of_nonpos (by norm_num)]; norm_num]
    norm_num
  simp only [update_motion, mkC9, Vec3.zero, if_neg ht, hdt, hgx, hgz, hmag,
    if_neg hband, stepQz]
  simp only [ControllerState.mk.injEq, MotionState.mk.injEq, true_and, and_true]
  constructor
  · push_cast
    ring
  · norm_num

/-- Folding `update_motion` over the uniform C9 ticks follows the
iterated rational shadow recurrence. -/
theorem c9_run (a : Vec3) (f : ℚ → ℚ)
    (hstep : ∀ (p : ℚ) (t : ℝ), t ≠ 0 →
      update_motion (t + 1/40) (mkC9 a (↑p) t) = mkC9 a (↑(f p)) (t + 1/40)) :
    ∀ n : ℕ, runMotion (mkC9 a 0 1) (ticksC9 n) =
      mkC9 a (↑(f^[n] 0)) (1 + n / 40) := by
  intro n
  induction n with
  | zero =>
    simp only [ticksC9, List.range_zero, List.map_nil, runMotion,
      List.foldl_nil, Function.iterate_zero, id_eq]
    norm_num
  | succ n ih =>
    have hsucc : ticksC9 (n + 1) = ticksC9 n ++ [1 + ((n:ℝ) + 1) / 40] := by
      simp [ticksC9, List.range_succ]
    calc runMotion (mkC9 a 0 1) (ticksC9 (n + 1))
        = update_motion (1 + ((n:ℝ) + 1) / 40)
            (runMotion (mkC9 a 0 1) (ticksC9 n)) := by
          rw [runMotion, hsucc, List.foldl_append]
          rfl
      _ = update_motion (1 + ((n:ℝ) + 1) / 40) (mkC9 a (↑(f^[n] 0)) (1 + n / 40)) := by
          rw [ih]
      _ = mkC9 a (↑(f^[n + 1] 0)) (1 + (↑(n + 1) : ℝ) / 40) := by
          have ht : (1 : ℝ) + (n:ℝ) / 40 ≠ 0 := by positivity
          rw [show (1:ℝ) + ((n:ℝ) + 1) / 40 = (1 + (n:ℝ) / 40) + 1/40 by ring,
            hstep _ _ ht, Function.iterate_succ_apply']
          congr 1
          push_cast
          ring

/-- Pure integration accumulates `n/400`. -/
theorem stepQz_iter (n : ℕ) : stepQz^[n] 0 = (n : ℚ) / 400 := by
  induction n with
  | zero => simp
  | succ n ih =>
    rw [Function.iterate_succ_apply', ih, stepQz]
    push_cast
    ring

/-- Up to tick 12 the corrected recurrence also accumulates `n/400`
(the error never exceeds the 3/100 threshold). -/
theorem stepQ_iter_le12 (n : ℕ) (hn : n ≤ 12) : stepQ^[n] 0 = (n : ℚ) / 400 := by
  induction n with
  | zero => simp
  | succ n ih =>
    rw [Function.iterate_succ_apply', ih (by omega)]
    simp only [stepQ]
    rw [show (n:ℚ)/400 + 1/10 * (1/40) = ((n:ℚ) + 1)/400 by ring]
    have hpos : (0:ℚ) < ((n:ℚ) + 1)/400 := by positivity
    have herr : ratAbs (0 - (((n:ℚ) + 1)/400)) = ((n:ℚ) + 1)/400 := by
      simp only [ratAbs]
      rw [if_pos (by linarith)]
      ring
    rw [herr, if_neg]
    · push_cast
      ring
    · have h12 : ((n:ℚ) + 1) ≤ 12 := by exact_mod_cast hn
      intro hgt
      have hle : ((n:ℚ) + 1) / 400 ≤ 3/100 := by linarith
      linarith

/-- From tick 12 on the correction fires every tick and the value
follows the damped geometric form. -/
theorem stepQ_iter_ge12 (k : ℕ) :
    stepQ^[12 + k] 0 = 197/1200 - (161/1200) * (197/200)^k := by
  induction k with
  | zero =>
    rw [show 12 + 0 = 12 from rfl, stepQ_iter_le12 12 le_rfl]
    norm_num
  | succ k ih =>
    rw [show 12 + (k + 1) = (12 + k) + 1 from rfl,
      Function.iterate_succ_apply', ih]
    have hq0 : (0:ℚ) ≤ (197/200)^k := by positivity
    have hq1 : ((197:ℚ)/200)^k ≤ 1 := pow_le_one₀ (by norm_num) (by norm_num)
    simp only [stepQ]
    rw [show (197/1200 - 161/1200 * ((197:ℚ)/200)^k) + 1/10 * (1/40) =
        1/6 - 161/1200 * ((197:ℚ)/200)^k by ring]
    have hpos : (0:ℚ) < 1/6 - 161/1200 * ((197:ℚ)/200)^k := by nlinarith
    have herr : ratAbs (0 - (1/6 - 161/1200 * ((197:ℚ)/200)^k)) =
        1/6 - 161/1200 * ((197:ℚ)/200)^k := by
      simp only [ratAbs]
      rw [if_pos (by linarith)]
      ring
    rw [herr, if_pos (by nlinarith : (3:ℚ)/100 < 1/6 - 161/1200 * ((197:ℚ)/200)^k)]
    rw [pow_succ]
    ring

/-- The corrected value after 40 ticks is below 0.08. -/
theorem c9_q_bound : stepQ^[40] (0:ℚ) < 2/25 := by
  rw [show (40:ℕ) = 12 + 28 from rfl, stepQ_iter_ge12 28]
  have hpow : (101:ℚ)/161 < ((197:ℚ)/200)^28 := by norm_num
  linarith

/-- C9 counterexample to the claim as stated: gyro x-rate 0.1 rad/s
over 40 uniform ticks of exactly 1/40 s (spanning 1 s), every sample's
accelerometer being (0, 0, 9.81) — magnitude exactly 9.81, which the
claim calls "not subject to correction" — yields an integrated pitch
below 0.08 rad: the in-band correction fires once the error passes
0.03 and drags the pitch more than 0.02 away from the claimed 0.1. -/
theorem c9_counterexample :
    (runMotion (mkC9 ⟨0, 0, 9.81⟩ 0 1) (ticksC9 40)).motion.pitch < 0.08 ∧
      Real.sqrt ((0:ℝ) * 0 + 0 * 0 + 9.81 * 9.81) = 9.81 := by
  constructor
  · have hrun := c9_run ⟨0, 0, 9.81⟩ stepQ c9_step_inband 40
    rw [hrun]
    show ((stepQ^[40] (0:ℚ) : ℚ) : ℝ) < 0.08
    calc ((stepQ^[40] (0:ℚ) : ℚ) : ℝ) < ((2/25 : ℚ) : ℝ) := by
          exact_mod_cast c9_q_bound
      _ = 0.08 := by norm_num
  · rw [show ((0:ℝ) * 0 + 0 * 0 + 9.81 * 9.81) = 9.81 ^ 2 by ring]
    exact Real.sqrt_sq (by norm_num)

/-- C9 (amended): with the same gyro rate and ticks but the
accelerometer out of the gravity tolerance band (zero vector, so the
complementary-filter correction is skipped on every tick), the
integrated pitch after the 40 ticks spanning exactly 1 s equals 0.1 rad
exactly. -/
theorem c9_pitch_integration :
    (runMotion (mkC9 Vec3.zero 0 1) (ticksC9 40)).motion.pitch = 0.1 ∧
      ¬(|Real.sqrt ((0:ℝ) * 0 + 0 * 0 + 0 * 0) - 9.81| < ACC_G_TOL) := by
  constructor
  · have hrun := c9_run Vec3.zero stepQz c9_step_noacc 40
    rw [hrun]
    show ((stepQz^[40] (0:ℚ) : ℚ) : ℝ) = 0.1
    rw [stepQz_iter 40]
    norm_num
  · rw [show ((0:ℝ) * 0 + 0 * 0 + 0 * 0) = 0 by ring, Real.sqrt_zero,
      ACC_G_TOL, show |(0:ℝ) - 9.81| = 9.81 by rw [abs_of_nonpos] <;> norm_num]
    norm_num

/-! ### C10: the control-line fields -/

/-- C10: with a swing, the line carries the driver-name sequence with
the physical A field followed (after the whole button block) by the
appended synthetic `A=1` — so the A field occurs twice, and with
physical A released both an `A=0` and an `A=1` field are present; with
no swing, every driver button name occurs exactly once. -/
theorem c10_swing_duplicates_a :
    (∀ (btns : String → ℤ) (RX RY : ℤ),
        (controlLine btns true RX RY).map Prod.fst =
          ["A", "B", "X", "Y", "START", "BACK", "GUIDE", "UP", "DOWN",
           "LEFT", "RIGHT", "A", "RX", "RY"] ∧
        fieldCount (controlLine btns true RX RY) "A" = 2 ∧
        (btns "A" = 0 → ("A", 0) ∈ controlLine btns true RX RY ∧
          ("A", 1) ∈ controlLine btns true RX RY)) ∧
    (∀ (btns : String → ℤ) (RX RY : ℤ), ∀ name ∈ driverNames,
        fieldCount (controlLine btns false RX RY) name = 1) := by
  constructor
  · intro btns RX RY
    refine ⟨by simp [controlLine, WII_TO_BRIDGE], ?_, ?_⟩
    · simp [fieldCount, controlLine, WII_TO_BRIDGE, List.filter]
    · intro hA
      constructor
      · simp [controlLine, WII_TO_BRIDGE, boolInt, hA]
      · simp [controlLine, WII_TO_BRIDGE]
  · intro btns RX RY name hname
    simp only [driverNames, WII_TO_BRIDGE, List.map_cons, List.map_nil,
      List.mem_cons, List.not_mem_nil, or_false] at hname
    rcases hname with h | h | h | h | h | h | h | h | h | h | h <;>
      subst h <;>
      simp [fieldCount, controlLine, WII_TO_BRIDGE, List.filter]

/-- C10 witness: with all physical buttons released and a swing, the
line contains both an `A=0` and an `A=1` field. -/
theorem c10_swing_duplicates_a_witness :
    (fun _ => (0 : ℤ)) "A" = 0 ∧
      ("A", (0 : ℤ)) ∈ controlLine (fun _ => 0) true 5 7 ∧
      ("A", (1 : ℤ)) ∈ controlLine (fun _ => 0) true 5 7 :=
  ⟨rfl, ((c10_swing_duplicates_a.1 (fun _ => 0) 5 7).2.2 rfl).1,
    ((c10_swing_duplicates_a.1 (fun _ => 0) 5 7).2.2 rfl).2⟩

end WiiMote

end
